import Mathlib

/-!
Shallow embedding of the document-reader-api pipeline: src/config.py,
src/document_processor.py, and the three upload endpoints of src/app.py.
The external OCR engine and the external language-model service are opaque
collaborators, so each embedded function takes their outcome (or the service
itself) as a parameter. Exceptions are modelled with Except String.
-/

namespace DocReader

/-- Python values as the endpoint code and the processor pass them around:
strings, ints, floats (modelled as rationals), booleans, lists and dicts. -/
inductive PyVal where
  | pstr (s : String)
  | pint (n : Int)
  | prat (q : Rat)
  | pbool (b : Bool)
  | plist (items : List PyVal)
  | pdict (entries : List (String × PyVal))

/-- Key lookup in the entry list of a Python dict (insertion order, first hit). -/
def lookupEntries : List (String × PyVal) → String → Option PyVal
  | [], _ => none
  | (k, x) :: rest, key => if k = key then some x else lookupEntries rest key

/-- Python subscript d[key] on a dict, none standing for KeyError; none on
non-dict values. -/
def pyGet (v : PyVal) (key : String) : Option PyVal :=
  match v with
  | .pdict entries => lookupEntries entries key
  | _ => none

/-- Python len(): number of characters of a str, number of keys of a dict;
none stands for TypeError on the other values. -/
def pyLen : PyVal → Option Nat
  | .pstr s => some s.length
  | .pdict entries => some entries.length
  | _ => none

/-- Python str.endswith, character-sequence based. -/
def pyEndsWith (s p : String) : Bool := p.data.isSuffixOf s.data

/-- Python str.lower (ASCII letters; the filenames and error signatures the
code compares are ASCII). -/
def pyLower (s : String) : String := ⟨s.data.map Char.toLower⟩

/-- Python str.strip with no argument: remove leading and trailing
whitespace. -/
def pyStrip (s : String) : String :=
  ⟨((s.data.dropWhile Char.isWhitespace).reverse.dropWhile Char.isWhitespace).reverse⟩

/-- Scan for an occurrence of needle at any position of hay. -/
def containsSub (needle : List Char) : List Char → Bool
  | [] => needle.isPrefixOf []
  | c :: rest => needle.isPrefixOf (c :: rest) || containsSub needle rest

/-- Python substring containment: needle in hay. -/
def strContains (hay needle : String) : Bool := containsSub needle.data hay.data

/-- Python repr of an atomic value, as the f-string interpolation of a dict
renders its entries. Numeric formatting approximates CPython; nested lists
and dicts do not occur in the values this code builds. -/
def pyAtomRepr : PyVal → String
  | .pstr s => "\x27" ++ s ++ "\x27"
  | .pint n => toString n
  | .prat q => toString q
  | .pbool b => if b then "True" else "False"
  | .plist _ => ""
  | .pdict _ => ""

/-- Python str() as an f-string applies it: a str interpolates as itself, a
dict as its brace-delimited entry list with repr-ed keys and values. -/
def pyStr (v : PyVal) : String :=
  match v with
  | .pstr s => s
  | .pdict entries =>
      "\x7b" ++
        String.intercalate ", "
          (entries.map (fun e => "\x27" ++ e.1 ++ "\x27: " ++ pyAtomRepr e.2)) ++
      "\x7d"
  | w => pyAtomRepr w

namespace Config

/-- src/config.py line 12: MAX_FILE_SIZE is read from the environment with
default 52428800 (50 MB); the default is modelled. -/
def MAX_FILE_SIZE : Nat := 52428800

/-- src/config.py line 30. -/
def SUPPORTED_EXTENSIONS : List String := [".pdf"]

end Config

/-- Outcome of the external OCR engine call (document_reader.
extract_text_with_confidence): the recognized text and the average confidence
over recognized regions. -/
structure OcrEngineResult where
  text : String
  average_confidence : Rat

/-- The request sent to the language-model service. -/
structure AiRequest where
  model : String
  max_tokens : Nat
  temperature : Rat
  system : String
  prompt : String

/-- The response of the language-model service: the texts of its content
blocks, response.content[i].text. -/
structure AiResponse where
  content : List String

namespace DocumentProcessor

/-- src/document_processor.py lines 19-46: wrap the engine outcome into a
dict with text, confidence and text_length keys; engine exceptions are
re-raised with the prefix from line 46. -/
def extract_text_from_pdf (engine : Except String OcrEngineResult) :
    Except String PyVal :=
  match engine with
  | .ok result => .ok (.pdict [("text", .pstr result.text),
      ("confidence", .prat result.average_confidence),
      ("text_length", .pint result.text.length)])
  | .error e => .error ("OCR processing failed: " ++ e)

/-- The request built in src/document_processor.py lines 63-76: final_prompt
concatenates the instruction with document-boundary markers around the text,
and the generation parameters are fixed. -/
def mkAiRequest (text prompt : String) : AiRequest :=
  { model := "claude-sonnet-4-20250514",
    max_tokens := 4096,
    temperature := 1/5,
    system := "You are a document information extractor. Return structured output as JSON.",
    prompt := prompt ++ "\n\n--- Begin Document ---\n" ++ text ++ "\n--- End Document ---" }

/-- src/document_processor.py lines 48-81: send the built request, return a
dict holding the first content text stripped (line 78); service exceptions,
and the IndexError of content[0] on an empty content list, are re-raised with
the prefix from line 81. -/
def extract_structured_data (text prompt : String)
    (service : AiRequest → Except String AiResponse) : Except String PyVal :=
  match service (mkAiRequest text prompt) with
  | .ok resp =>
      match resp.content with
      | first :: _ => .ok (.pdict [("extracted_data", .pstr (pyStrip first))])
      | [] => .error ("AI extraction failed: list index out of range")
  | .error e => .error ("AI extraction failed: " ++ e)

/-- src/document_processor.py lines 83-105: OCR then AI extraction, combined
into a dict with confidence_score and extracted_data. Exceptions of either
stage propagate. The KeyError branches are unreachable: extract_text_from_pdf
and extract_structured_data always populate the keys read here. -/
def process_pdf_with_prompt (engine : Except String OcrEngineResult)
    (service : AiRequest → Except String AiResponse) (prompt : String) :
    Except String PyVal :=
  match extract_text_from_pdf engine with
  | .error e => .error e
  | .ok ocr =>
    match pyGet ocr "text", pyGet ocr "confidence" with
    | some (.pstr t), some conf =>
      match extract_structured_data t prompt service with
      | .error e => .error e
      | .ok ai =>
        match pyGet ai "extracted_data" with
        | some ed => .ok (.pdict [("confidence_score", conf), ("extracted_data", ed)])
        | none => .error "KeyError: extracted_data"
    | _, _ => .error "KeyError"

end DocumentProcessor

namespace FileHandler

/-- src/document_processor.py lines 111-121: case-insensitive extension
check. -/
def validate_file_type (filename : String) : Bool :=
  pyEndsWith (pyLower filename) ".pdf"

/-- src/document_processor.py lines 143-155: unlink the backing file only if
it exists; never raises. Argument: whether the file is present; result: its
presence afterwards, and whether os.unlink was invoked. -/
def cleanup_temp_file (present : Bool) : Bool × Bool :=
  if present then (false, true) else (false, false)

end FileHandler

/-! Embedding of the three upload endpoints of src/app.py. Each endpoint is a
function of the upload metadata and of the outcomes of the external
collaborators; besides the HTTP result it returns a trace recording whether
the temporary file was materialized, whether the OCR engine and the AI
service were invoked, and how many times os.unlink ran. -/

/-- The FastAPI UploadFile fields the endpoints read: filename, the reported
size (None possible), and the payload bytes. -/
structure UploadFile where
  filename : String
  size : Option Nat
  content : List Nat

/-- Either a 200 JSON response or a raised HTTPException. -/
inductive HttpResult where
  | response (body : PyVal)
  | httpError (status : Nat) (detail : String)

/-- Status code surfaced to the client. -/
def HttpResult.statusCode : HttpResult → Nat
  | .response _ => 200
  | .httpError s _ => s

/-- Per-request trace of the side effects the endpoints perform. -/
structure RunTrace where
  materialized : Bool
  ocrInvoked : Bool
  aiInvoked : Bool
  unlinkCount : Nat
deriving DecidableEq

/-- Trace of a request rejected during validation. -/
def noTrace : RunTrace := ⟨false, false, false, 0⟩

/-- src/app.py lines 53-58 (and 116-121, 186-191): the size check fires only
when file.size is truthy, that is neither None nor 0, and exceeds
Config.MAX_FILE_SIZE. -/
def sizeRejected (size : Option Nat) : Bool :=
  match size with
  | none => false
  | some n => decide (n ≠ 0) && decide (Config.MAX_FILE_SIZE < n)

/-- Detail string of the oversize rejection, src/app.py line 57. -/
def sizeDetail : String :=
  "File size exceeds maximum limit of " ++ toString Config.MAX_FILE_SIZE ++ " bytes"

/-- src/app.py lines 85-99: error classification of the generic except branch
of the /ocr and /ocr-detailed endpoints. -/
def classify_ocr_error (m : String) : String :=
  if strContains (pyLower m) "document-reader" then
    "OCR processing failed. The PDF may be corrupted or unsupported."
  else if strContains (pyLower m) "memory" || strContains (pyLower m) "resource" then
    "Insufficient resources to process document. Try a smaller file."
  else
    "OCR processing failed: " ++ m

/-- src/app.py lines 220-238: error classification of the generic except
branch of the /extract endpoint. -/
def classify_extract_error (m : String) : String :=
  if strContains m "404" && strContains (pyLower m) "model" then
    "AI model not available. Please contact support."
  else if strContains m "401" || strContains (pyLower m) "authentication" then
    "AI service authentication failed. Check API configuration."
  else if strContains m "400" || strContains (pyLower m) "invalid" then
    "Invalid request to AI service. Check your prompt and try again."
  else if strContains (pyLower m) "timeout" then
    "AI processing timed out. Try with a shorter document or simpler prompt."
  else if strContains (pyLower m) "document-reader" then
    "OCR processing failed. The PDF may be corrupted or unsupported."
  else if strContains (pyLower m) "memory" || strContains (pyLower m) "resource" then
    "Insufficient resources. Try a smaller file or simpler prompt."
  else
    "Processing failed: " ++ m

/-- src/app.py lines 40-100, the /ocr endpoint: file-type check, size check,
materialize the temp file, OCR (whose result dict the endpoint stores in the
variable named text), unlink, then build the response with text_length =
len of that variable. The pyLen-none branch (TypeError) is unreachable:
extract_text_from_pdf returns a dict on success. -/
def ocr_endpoint (file : UploadFile) (engine : Except String OcrEngineResult) :
    HttpResult × RunTrace :=
  if pyEndsWith file.filename ".pdf" = false then
    (.httpError 400 "Only PDF files are supported", noTrace)
  else if sizeRejected file.size then
    (.httpError 400 sizeDetail, noTrace)
  else
    match DocumentProcessor.extract_text_from_pdf engine with
    | .error e =>
        (.httpError 500 (classify_ocr_error e), ⟨true, true, false, 0⟩)
    | .ok text =>
        match pyLen text with
        | some n =>
            (.response (.pdict [("success", .pbool true), ("text", text),
              ("text_length", .pint n)]),
             ⟨true, true, false, 1⟩)
        | none =>
            (.httpError 500 (classify_ocr_error "TypeError"), ⟨true, true, false, 1⟩)

/-- Bounding boxes, per-region confidences and layout entries as the layout
variant of the engine reports them. -/
structure LayoutData where
  bounding_boxes : List PyVal
  confidence_scores : List PyVal
  layout_info : List PyVal

/-- Modelled from the spec: src/app.py line 131 calls
document_processor.extract_text_with_layout, but src/document_processor.py
does not define that method. Per spec sections 4.2 and 6, the layout variant
returns text, text_length, bounding_boxes, confidence_scores and layout_info;
when the engine does not support layout output for the document (layout =
none) it degrades to the text-only result and still succeeds, with empty
layout and confidence collections; engine exceptions are mapped like the
text-only adapter. -/
def extract_text_with_layout (engine : Except String OcrEngineResult)
    (layout : Option LayoutData) : Except String (List (String × PyVal)) :=
  match engine with
  | .error e => .error ("OCR processing failed: " ++ e)
  | .ok result =>
    match layout with
    | some l => .ok [("text", .pstr result.text),
        ("text_length", .pint result.text.length),
        ("bounding_boxes", .plist l.bounding_boxes),
        ("confidence_scores", .plist l.confidence_scores),
        ("layout_info", .plist l.layout_info)]
    | none => .ok [("text", .pstr result.text),
        ("text_length", .pint result.text.length),
        ("bounding_boxes", .plist []),
        ("confidence_scores", .plist []),
        ("layout_info", .plist [])]

/-- src/app.py lines 103-162, the /ocr-detailed endpoint: same checks as
/ocr, then the layout-aware extraction, unlink, and a response spreading the
result entries after the success flag. -/
def ocr_detailed_endpoint (file : UploadFile)
    (engine : Except String OcrEngineResult) (layout : Option LayoutData) :
    HttpResult × RunTrace :=
  if pyEndsWith file.filename ".pdf" = false then
    (.httpError 400 "Only PDF files are supported", noTrace)
  else if sizeRejected file.size then
    (.httpError 400 sizeDetail, noTrace)
  else
    match extract_text_with_layout engine layout with
    | .error e =>
        (.httpError 500 (classify_ocr_error e), ⟨true, true, false, 0⟩)
    | .ok entries =>
        (.response (.pdict (("success", .pbool true) :: entries)),
         ⟨true, true, false, 1⟩)

/-- src/app.py lines 165-243, the /extract endpoint: file-type check, prompt
check, size check, materialize, OCR, then AI extraction on the variable text,
which holds the OCR result dict and is rendered by the f-string of
extract_structured_data via str(); unlink; respond with only the success flag
and extracted_data. The pyGet-none branch (KeyError after the unlink of line
207) is unreachable: extract_structured_data always populates the key. -/
def extract_endpoint (file : UploadFile) (prompt : String)
    (engine : Except String OcrEngineResult)
    (service : AiRequest → Except String AiResponse) : HttpResult × RunTrace :=
  if pyEndsWith file.filename ".pdf" = false then
    (.httpError 400 "Only PDF files are supported", noTrace)
  else if prompt = "" ∨ (pyStrip prompt).length < 10 then
    (.httpError 400 "Prompt must be at least 10 characters", noTrace)
  else if sizeRejected file.size then
    (.httpError 400 sizeDetail, noTrace)
  else
    match DocumentProcessor.extract_text_from_pdf engine with
    | .error e =>
        (.httpError 500 (classify_extract_error e), ⟨true, true, false, 0⟩)
    | .ok text =>
        match DocumentProcessor.extract_structured_data (pyStr text) prompt service with
        | .error e =>
            (.httpError 500 (classify_extract_error e), ⟨true, true, true, 0⟩)
        | .ok result =>
            match pyGet result "extracted_data" with
            | some ed =>
                (.response (.pdict [("success", .pbool true), ("extracted_data", ed)]),
                 ⟨true, true, true, 1⟩)
            | none =>
                (.httpError 500 (classify_extract_error "KeyError"), ⟨true, true, true, 1⟩)

/-! Theorems for the claims. -/

/-- C1: the claim says every pipeline run that materializes the temporary
file releases it exactly once on every exit path. In src/app.py the unlink of
line 207 runs only on the success path; the except branches re-raise without
any cleanup, so on OCR failure and on AI failure the materialized artifact is
released zero times. The three conjuncts evaluate a success run, an
OCR-failure run and an AI-failure run of the /extract endpoint: the trace
records materialized = true in all three, but unlinkCount = 1 only in the
first and 0 in the other two. -/
theorem c1_artifact_leaked_on_failure_paths :
    (extract_endpoint ⟨"a.pdf", some 10, [1]⟩ "a valid prompt here" (.ok ⟨"t", 1/2⟩)
      (fun _ => .ok ⟨["X"]⟩)).snd = ⟨true, true, true, 1⟩ ∧
    (extract_endpoint ⟨"a.pdf", some 10, [1]⟩ "a valid prompt here" (.error "ocr boom")
      (fun _ => .ok ⟨["X"]⟩)).snd = ⟨true, true, false, 0⟩ ∧
    (extract_endpoint ⟨"a.pdf", some 10, [1]⟩ "a valid prompt here" (.ok ⟨"t", 1/2⟩)
      (fun _ => .error "ai boom")).snd = ⟨true, true, true, 0⟩ :=
  ⟨by decide, by decide, by decide⟩

/-- C2: the claim says the success object of a text-only OCR run carries the
recognized text and text_length equal to its character count.
DocumentProcessor.extract_text_from_pdf does return a dict whose text_length
equals the length of the text (first conjunct: 11 for "hello world"), but the
/ocr endpoint stores that dict in the variable it treats as the text, so its
response nests the dict under the text key and computes text_length as
len(dict) = 3, the number of keys, whatever the recognized text was. -/
theorem c2_endpoint_text_length_is_key_count :
    DocumentProcessor.extract_text_from_pdf (.ok ⟨"hello world", 9/10⟩)
      = .ok (.pdict [("text", .pstr "hello world"), ("confidence", .prat (9/10)),
          ("text_length", .pint 11)]) ∧
    "hello world".length = 11 ∧
    (ocr_endpoint ⟨"a.pdf", some 10, []⟩ (.ok ⟨"hello world", 9/10⟩)).fst
      = .response (.pdict [("success", .pbool true),
          ("text", .pdict [("text", .pstr "hello world"), ("confidence", .prat (9/10)),
            ("text_length", .pint 11)]),
          ("text_length", .pint 3)]) :=
  ⟨rfl, rfl, rfl⟩

/-- C3: for a document accepted by the layout-aware mode, when the engine
does not support layout output (layout = none) the endpoint still returns a
success response carrying the text, with empty bounding_boxes,
confidence_scores and layout_info collections, and the artifact is cleaned
up. The layout extraction itself is modelled from the spec, since
extract_text_with_layout is called by src/app.py but absent from
src/document_processor.py. -/
theorem c3_layout_fallback_succeeds (file : UploadFile)
    (engine : Except String OcrEngineResult) (r : OcrEngineResult)
    (hf : pyEndsWith file.filename ".pdf" = true)
    (hs : sizeRejected file.size = false)
    (he : engine = .ok r) :
    ocr_detailed_endpoint file engine none
      = (.response (.pdict [("success", .pbool true), ("text", .pstr r.text),
          ("text_length", .pint r.text.length), ("bounding_boxes", .plist []),
          ("confidence_scores", .plist []), ("layout_info", .plist [])]),
         ⟨true, true, false, 1⟩) := by
  subst he
  simp [ocr_detailed_endpoint, extract_text_with_layout, hf, hs]

/-- Witness for C3 at a concrete accepted upload with an engine that yields
text but no layout. -/
theorem c3_layout_fallback_witness :
    ocr_detailed_endpoint ⟨"a.pdf", some 10, []⟩ (.ok ⟨"t", 1/2⟩) none
      = (.response (.pdict [("success", .pbool true), ("text", .pstr "t"),
          ("text_length", .pint 1), ("bounding_boxes", .plist []),
          ("confidence_scores", .plist []), ("layout_info", .plist [])]),
         ⟨true, true, false, 1⟩) :=
  c3_layout_fallback_succeeds ⟨"a.pdf", some 10, []⟩ _ ⟨"t", 1/2⟩
    (by decide) (by decide) rfl

/-- C4, counterexample: on a run with OCR success and a valid instruction,
the success response of the /extract endpoint is only the success flag plus
extracted_data; looking up confidence_score in the body yields none, so the
outcome does not contain the OCR confidence score as claimed. -/
theorem c4_endpoint_response_lacks_confidence :
    (extract_endpoint ⟨"a.pdf", some 10, []⟩ "extract the total" (.ok ⟨"t", 9/10⟩)
       (fun _ => .ok ⟨["X"]⟩)).fst
      = .response (.pdict [("success", .pbool true), ("extracted_data", .pstr "X")]) ∧
    pyGet (.pdict [("success", .pbool true), ("extracted_data", .pstr "X")])
        "confidence_score" = none :=
  ⟨rfl, rfl⟩

/-- C4, amended: the pipeline function
DocumentProcessor.process_pdf_with_prompt does produce the claimed shape: on
OCR success and a service answer whose first content text is first, it
returns a dict with confidence_score equal to the OCR confidence and
extracted_data equal to that text stripped. The /extract endpoint, however,
exposes only extracted_data. -/
theorem c4_pipeline_outcome_shape (t prompt first : String) (c : Rat)
    (rest : List String) (service : AiRequest → Except String AiResponse)
    (hsvc : service (DocumentProcessor.mkAiRequest t prompt) = .ok ⟨first :: rest⟩) :
    DocumentProcessor.process_pdf_with_prompt (.ok ⟨t, c⟩) service prompt
      = .ok (.pdict [("confidence_score", .prat c),
          ("extracted_data", .pstr (pyStrip first))]) := by
  simp [DocumentProcessor.process_pdf_with_prompt, DocumentProcessor.extract_text_from_pdf,
        DocumentProcessor.extract_structured_data, hsvc, pyGet, lookupEntries]

/-- Witness for C4 at a concrete OCR text, confidence and service answer. -/
theorem c4_pipeline_outcome_witness :
    DocumentProcessor.process_pdf_with_prompt (.ok ⟨"t", 9/10⟩)
      (fun _ => .ok ⟨["X"]⟩) "extract the total"
      = .ok (.pdict [("confidence_score", .prat (9/10)), ("extracted_data", .pstr "X")]) :=
  c4_pipeline_outcome_shape "t" "extract the total" "X" (9/10) [] _ rfl

/-- C5, counterexample: the claim says the first textual completion is
returned unmodified as extracted_data. For the completion " X " the code
returns its stripped form "X" (str.strip() on line 78 of
src/document_processor.py), and " X " differs from "X". -/
theorem c5_completion_whitespace_stripped :
    DocumentProcessor.extract_structured_data "doc" "instruction"
        (fun _ => .ok ⟨[" X "]⟩)
      = .ok (.pdict [("extracted_data", .pstr "X")]) ∧ " X " ≠ "X" :=
  ⟨rfl, by decide⟩

/-- C5, amended: the extraction step sends the service one request whose
prompt is the instruction concatenated with document-boundary markers
wrapping the OCR text, with the fixed generation parameters max_tokens = 4096
and temperature = 0.2, and returns the first textual completion of the
response with surrounding whitespace stripped as extracted_data. -/
theorem c5_prompt_shape_and_params (text prompt first : String)
    (rest : List String) (service : AiRequest → Except String AiResponse)
    (hsvc : service (DocumentProcessor.mkAiRequest text prompt) = .ok ⟨first :: rest⟩) :
    (DocumentProcessor.mkAiRequest text prompt).prompt
        = prompt ++ "\n\n--- Begin Document ---\n" ++ text ++ "\n--- End Document ---" ∧
    (DocumentProcessor.mkAiRequest text prompt).max_tokens = 4096 ∧
    (DocumentProcessor.mkAiRequest text prompt).temperature = 1/5 ∧
    DocumentProcessor.extract_structured_data text prompt service
        = .ok (.pdict [("extracted_data", .pstr (pyStrip first))]) := by
  refine ⟨rfl, rfl, rfl, ?_⟩
  simp [DocumentProcessor.extract_structured_data, hsvc]

/-- Witness for C5 at a concrete text, instruction and service answer. -/
theorem c5_prompt_shape_witness :
    (DocumentProcessor.mkAiRequest "doc" "inst").prompt
        = "inst" ++ "\n\n--- Begin Document ---\n" ++ "doc" ++ "\n--- End Document ---" ∧
    (DocumentProcessor.mkAiRequest "doc" "inst").max_tokens = 4096 ∧
    (DocumentProcessor.mkAiRequest "doc" "inst").temperature = 1/5 ∧
    DocumentProcessor.extract_structured_data "doc" "inst" (fun _ => .ok ⟨["X"]⟩)
        = .ok (.pdict [("extracted_data", .pstr (pyStrip "X"))]) :=
  c5_prompt_shape_and_params "doc" "inst" "X" [] _ rfl

/-- C6, counterexample: the claim says file-type validation accepts a name
iff its extension matches case-insensitively, so that "doc.PDF" and "doc.Pdf"
are accepted. FileHandler.validate_file_type indeed accepts "doc.PDF", but
the endpoints of src/app.py use the case-sensitive check
file.filename.endswith(".pdf") and reject both names with 400. -/
theorem c6_uppercase_pdf_rejected_by_endpoint :
    FileHandler.validate_file_type "doc.PDF" = true ∧
    (ocr_endpoint ⟨"doc.PDF", some 10, []⟩ (.ok ⟨"t", 1/2⟩)).fst
      = .httpError 400 "Only PDF files are supported" ∧
    (extract_endpoint ⟨"doc.Pdf", some 10, []⟩ "a valid prompt here" (.ok ⟨"t", 1/2⟩)
      (fun _ => .ok ⟨["X"]⟩)).fst = .httpError 400 "Only PDF files are supported" :=
  ⟨by decide, rfl, rfl⟩

/-- C6, amended: FileHandler.validate_file_type accepts a filename iff its
lowercased form ends with an entry of the supported extension set, so ".PDF"
and ".Pdf" are accepted there; the HTTP endpoints however apply a
case-sensitive endswith(".pdf") check and answer 400 whenever it fails. -/
theorem c6_validation_case_sensitivity :
    (∀ fn, FileHandler.validate_file_type fn = true ↔
        ∃ ext ∈ Config.SUPPORTED_EXTENSIONS, pyEndsWith (pyLower fn) ext = true) ∧
    (∀ file engine, pyEndsWith file.filename ".pdf" = false →
        (ocr_endpoint file engine).fst = .httpError 400 "Only PDF files are supported") := by
  constructor
  · intro fn
    simp [FileHandler.validate_file_type, Config.SUPPORTED_EXTENSIONS]
  · intro file engine h
    simp [ocr_endpoint, h]

/-- Witness for C6 at concrete filenames. -/
theorem c6_validation_case_sensitivity_witness :
    (FileHandler.validate_file_type "doc.pdf" = true ↔
        ∃ ext ∈ Config.SUPPORTED_EXTENSIONS, pyEndsWith (pyLower "doc.pdf") ext = true) ∧
    (ocr_endpoint ⟨"doc.txt", some 1, []⟩ (.ok ⟨"t", 1/2⟩)).fst
      = .httpError 400 "Only PDF files are supported" :=
  ⟨c6_validation_case_sensitivity.1 "doc.pdf",
   c6_validation_case_sensitivity.2 ⟨"doc.txt", some 1, []⟩ (.ok ⟨"t", 1/2⟩) (by decide)⟩

/-- C7, counterexample: the claim says oversize uploads surface as 413. An
upload one byte over the 52428800-byte ceiling is rejected by the /ocr
endpoint with status 400, and 400 differs from 413. -/
theorem c7_oversize_maps_to_400 :
    (ocr_endpoint ⟨"a.pdf", some 52428801, []⟩ (.ok ⟨"t", 1/2⟩)).fst
      = .httpError 400 "File size exceeds maximum limit of 52428800 bytes" ∧
    (400 : Nat) ≠ 413 :=
  ⟨rfl, by decide⟩

/-- C7, amended: a reported size over the ceiling is rejected with status 400
and the oversize detail message, the same status class as the other
validation failures, while OCR failures and AI failures surface with status
500. -/
theorem c7_status_mapping :
    (∀ file engine, pyEndsWith file.filename ".pdf" = true →
        sizeRejected file.size = true →
        (ocr_endpoint file engine).fst = .httpError 400 sizeDetail) ∧
    (∀ file e, pyEndsWith file.filename ".pdf" = true →
        sizeRejected file.size = false →
        (ocr_endpoint file (.error e)).fst.statusCode = 500) ∧
    (∀ file prompt r m (service : AiRequest → Except String AiResponse),
        pyEndsWith file.filename ".pdf" = true →
        ¬(prompt = "" ∨ (pyStrip prompt).length < 10) →
        sizeRejected file.size = false →
        (∀ req, service req = .error m) →
        (extract_endpoint file prompt (.ok r) service).fst.statusCode = 500) := by
  refine ⟨?_, ?_, ?_⟩
  · intro file engine hf hs
    simp [ocr_endpoint, hf, hs]
  · intro file e hf hs
    simp [ocr_endpoint, DocumentProcessor.extract_text_from_pdf, hf, hs,
      HttpResult.statusCode]
  · intro file prompt r m service hf hp hs hsvc
    simp [extract_endpoint, DocumentProcessor.extract_text_from_pdf,
      DocumentProcessor.extract_structured_data, hf, hp, hs, hsvc,
      HttpResult.statusCode]

/-- Witness for C7: an oversize upload answered 400, an OCR failure answered
500, and an AI failure answered 500, at concrete inputs. -/
theorem c7_status_mapping_witness :
    (ocr_endpoint ⟨"a.pdf", some 52428801, []⟩ (.ok ⟨"t", 1/2⟩)).fst
      = .httpError 400 sizeDetail ∧
    (ocr_endpoint ⟨"a.pdf", some 10, []⟩ (.error "boom")).fst.statusCode = 500 ∧
    (extract_endpoint ⟨"a.pdf", some 10, []⟩ "a valid prompt here" (.ok ⟨"t", 1/2⟩)
        (fun _ => .error "ai down")).fst.statusCode = 500 :=
  ⟨c7_status_mapping.1 ⟨"a.pdf", some 52428801, []⟩ (.ok ⟨"t", 1/2⟩)
      (by decide) (by decide),
   c7_status_mapping.2.1 ⟨"a.pdf", some 10, []⟩ "boom" (by decide) (by decide),
   c7_status_mapping.2.2 ⟨"a.pdf", some 10, []⟩ "a valid prompt here" ⟨"t", 1/2⟩
      "ai down" (fun _ => .error "ai down") (by decide) (by decide) (by decide)
      (fun _ => rfl)⟩

/-- C8: a request whose instruction has trimmed length below 10 is rejected
with status 400 before the temporary file is materialized and before the OCR
adapter is invoked: the trace of the /extract endpoint stays at noTrace. -/
theorem c8_short_prompt_fails_before_ocr (file : UploadFile) (prompt : String)
    (engine : Except String OcrEngineResult)
    (service : AiRequest → Except String AiResponse)
    (hp : (pyStrip prompt).length < 10) :
    (extract_endpoint file prompt engine service).fst.statusCode = 400 ∧
    (extract_endpoint file prompt engine service).snd.materialized = false ∧
    (extract_endpoint file prompt engine service).snd.ocrInvoked = false := by
  by_cases hf : pyEndsWith file.filename ".pdf" = false
  · simp [extract_endpoint, hf, HttpResult.statusCode, noTrace]
  · unfold extract_endpoint
    rw [if_neg hf, if_pos (Or.inr hp)]
    exact ⟨rfl, rfl, rfl⟩

/-- Witness for C8 at a concrete upload with the instruction "short". -/
theorem c8_short_prompt_witness :
    (extract_endpoint ⟨"a.pdf", some 10, []⟩ "short" (.ok ⟨"t", 1/2⟩)
        (fun _ => .ok ⟨["X"]⟩)).fst.statusCode = 400 ∧
    (extract_endpoint ⟨"a.pdf", some 10, []⟩ "short" (.ok ⟨"t", 1/2⟩)
        (fun _ => .ok ⟨["X"]⟩)).snd.materialized = false ∧
    (extract_endpoint ⟨"a.pdf", some 10, []⟩ "short" (.ok ⟨"t", 1/2⟩)
        (fun _ => .ok ⟨["X"]⟩)).snd.ocrInvoked = false :=
  c8_short_prompt_fails_before_ocr ⟨"a.pdf", some 10, []⟩ "short" (.ok ⟨"t", 1/2⟩)
    (fun _ => .ok ⟨["X"]⟩) (by decide)

/-- C9, counterexample: the claim says any AI failure message not matching
the authentication, invalid-request, not-found/model-unavailable or timeout
signatures falls back to the generic failure message. The message
"AI extraction failed: out of memory" matches none of those signatures, yet
the classifier answers the specific resource message, not the generic
"Processing failed: ..." fallback. -/
theorem c9_memory_signature_not_generic :
    (strContains "AI extraction failed: out of memory" "404" = false ∧
     strContains (pyLower "AI extraction failed: out of memory") "model" = false ∧
     strContains "AI extraction failed: out of memory" "401" = false ∧
     strContains (pyLower "AI extraction failed: out of memory") "authentication" = false ∧
     strContains "AI extraction failed: out of memory" "400" = false ∧
     strContains (pyLower "AI extraction failed: out of memory") "invalid" = false ∧
     strContains (pyLower "AI extraction failed: out of memory") "timeout" = false) ∧
    classify_extract_error "AI extraction failed: out of memory"
      = "Insufficient resources. Try a smaller file or simpler prompt." ∧
    classify_extract_error "AI extraction failed: out of memory"
      ≠ "Processing failed: AI extraction failed: out of memory" :=
  ⟨by decide, rfl, by decide⟩

/-- C9, amended: the /extract error classifier inspects the message, in
order, for the not-found/model-unavailable, authentication, invalid-request
and timeout signatures and answers their specific messages; after those it
also recognizes the OCR-corruption signature (document-reader) and the
resource-exhaustion signatures (memory, resource) with their hints; only a
message matching none of these signatures falls back to the generic
"Processing failed: ..." message. -/
theorem c9_classifier_branches (m : String) :
    ((strContains m "404" && strContains (pyLower m) "model") = true →
      classify_extract_error m = "AI model not available. Please contact support.") ∧
    ((strContains m "404" && strContains (pyLower m) "model") = false →
      (strContains m "401" || strContains (pyLower m) "authentication") = true →
      classify_extract_error m
        = "AI service authentication failed. Check API configuration.") ∧
    ((strContains m "404" && strContains (pyLower m) "model") = false →
      (strContains m "401" || strContains (pyLower m) "authentication") = false →
      (strContains m "400" || strContains (pyLower m) "invalid") = true →
      classify_extract_error m
        = "Invalid request to AI service. Check your prompt and try again.") ∧
    ((strContains m "404" && strContains (pyLower m) "model") = false →
      (strContains m "401" || strContains (pyLower m) "authentication") = false →
      (strContains m "400" || strContains (pyLower m) "invalid") = false →
      strContains (pyLower m) "timeout" = true →
      classify_extract_error m
        = "AI processing timed out. Try with a shorter document or simpler prompt.") ∧
    ((strContains m "404" && strContains (pyLower m) "model") = false →
      (strContains m "401" || strContains (pyLower m) "authentication") = false →
      (strContains m "400" || strContains (pyLower m) "invalid") = false →
      strContains (pyLower m) "timeout" = false →
      strContains (pyLower m) "document-reader" = true →
      classify_extract_error m
        = "OCR processing failed. The PDF may be corrupted or unsupported.") ∧
    ((strContains m "404" && strContains (pyLower m) "model") = false →
      (strContains m "401" || strContains (pyLower m) "authentication") = false →
      (strContains m "400" || strContains (pyLower m) "invalid") = false →
      strContains (pyLower m) "timeout" = false →
      strContains (pyLower m) "document-reader" = false →
      (strContains (pyLower m) "memory" || strContains (pyLower m) "resource") = true →
      classify_extract_error m
        = "Insufficient resources. Try a smaller file or simpler prompt.") ∧
    ((strContains m "404" && strContains (pyLower m) "model") = false →
      (strContains m "401" || strContains (pyLower m) "authentication") = false →
      (strContains m "400" || strContains (pyLower m) "invalid") = false →
      strContains (pyLower m) "timeout" = false →
      strContains (pyLower m) "document-reader" = false →
      (strContains (pyLower m) "memory" || strContains (pyLower m) "resource") = false →
      classify_extract_error m = "Processing failed: " ++ m) := by
  refine ⟨?_, ?_, ?_, ?_, ?_, ?_, ?_⟩ <;> intros <;> simp_all [classify_extract_error]

/-- Witness for C9: the generic fallback at the unmatched message "boom". -/
theorem c9_classifier_branches_witness :
    classify_extract_error "boom" = "Processing failed: " ++ "boom" :=
  (c9_classifier_branches "boom").2.2.2.2.2.2 (by decide) (by decide) (by decide)
    (by decide) (by decide) (by decide)

/-- C10: when the reported upload size is None or 0 the size-ceiling check of
the endpoints does not fire (file.size is falsy in Python), so for any
payload bytes whatsoever an otherwise valid request proceeds to materialize
the temporary file and to invoke the OCR adapter, on all three endpoints. -/
theorem c10_size_check_skipped (name : String) (sz : Option Nat)
    (content : List Nat) (engine : Except String OcrEngineResult)
    (layout : Option LayoutData) (prompt : String)
    (service : AiRequest → Except String AiResponse)
    (hsz : sz = none ∨ sz = some 0)
    (hf : pyEndsWith name ".pdf" = true) :
    ((ocr_endpoint ⟨name, sz, content⟩ engine).snd.materialized = true ∧
     (ocr_endpoint ⟨name, sz, content⟩ engine).snd.ocrInvoked = true) ∧
    ((ocr_detailed_endpoint ⟨name, sz, content⟩ engine layout).snd.materialized = true ∧
     (ocr_detailed_endpoint ⟨name, sz, content⟩ engine layout).snd.ocrInvoked = true) ∧
    (¬(prompt = "" ∨ (pyStrip prompt).length < 10) →
     (extract_endpoint ⟨name, sz, content⟩ prompt engine service).snd.materialized = true ∧
     (extract_endpoint ⟨name, sz, content⟩ prompt engine service).snd.ocrInvoked = true) := by
  have hs : sizeRejected sz = false := by
    rcases hsz with h | h <;> subst h <;> rfl
  refine ⟨?_, ?_, ?_⟩
  · rcases engine with e | r <;>
      simp [ocr_endpoint, DocumentProcessor.extract_text_from_pdf, hf, hs, pyLen]
  · rcases engine with e | r <;> rcases layout with _ | l <;>
      simp [ocr_detailed_endpoint, extract_text_with_layout, hf, hs]
  · intro hp
    unfold extract_endpoint
    rw [if_neg (by simp [hf]), if_neg hp, if_neg (by simp [hs])]
    rcases engine with e | r
    · exact ⟨rfl, rfl⟩
    · rcases hval : DocumentProcessor.extract_structured_data
          (pyStr (.pdict [("text", .pstr r.text),
            ("confidence", .prat r.average_confidence),
            ("text_length", .pint r.text.length)])) prompt service with e | v
      · simp [DocumentProcessor.extract_text_from_pdf, hval]
      · rcases v with s | n | q | b | items | entries <;>
          simp [DocumentProcessor.extract_text_from_pdf, hval, pyGet]
        rcases h2 : lookupEntries entries "extracted_data" with _ | w <;> simp

/-- Witness for C10 at a concrete upload with absent reported size. -/
theorem c10_size_check_skipped_witness :
    ((ocr_endpoint ⟨"a.pdf", none, [1, 2, 3]⟩ (.ok ⟨"t", 1/2⟩)).snd.materialized = true ∧
     (ocr_endpoint ⟨"a.pdf", none, [1, 2, 3]⟩ (.ok ⟨"t", 1/2⟩)).snd.ocrInvoked = true) ∧
    ((ocr_detailed_endpoint ⟨"a.pdf", none, [1, 2, 3]⟩ (.ok ⟨"t", 1/2⟩)
        none).snd.materialized = true ∧
     (ocr_detailed_endpoint ⟨"a.pdf", none, [1, 2, 3]⟩ (.ok ⟨"t", 1/2⟩)
        none).snd.ocrInvoked = true) ∧
    (¬("a valid prompt here" = "" ∨ (pyStrip "a valid prompt here").length < 10) →
     (extract_endpoint ⟨"a.pdf", none, [1, 2, 3]⟩ "a valid prompt here" (.ok ⟨"t", 1/2⟩)
        (fun _ => .ok ⟨["X"]⟩)).snd.materialized = true ∧
     (extract_endpoint ⟨"a.pdf", none, [1, 2, 3]⟩ "a valid prompt here" (.ok ⟨"t", 1/2⟩)
        (fun _ => .ok ⟨["X"]⟩)).snd.ocrInvoked = true) :=
  c10_size_check_skipped "a.pdf" none [1, 2, 3] (.ok ⟨"t", 1/2⟩) none
    "a valid prompt here" (fun _ => .ok ⟨["X"]⟩) (Or.inl rfl) (by decide)

end DocReader
